import Mathlib

/-!
Verification of the AI financial-advisor backend (`src/backend/main.py`).

The embedding models the two HTTP handlers of the FastAPI application and
the helper `get_ai_response`.  Effects of the outside world are passed in
explicitly:

* `apiKey` models `os.getenv('GROQ_API_KEY')` (`none` = variable absent);
* `RemoteOutcome` models what `requests.post` does: either it raises
  (timeout, connection error, ...) or it completes with a status code and
  a body that may or may not parse as JSON;
* Python exceptions are modelled with `Except PyErr`;
* the single `requests.post` invocation is recorded as an `OutboundCall`
  value so that properties about what is sent over the wire can be stated.
-/

namespace AIChatbot

/-- Python exception kinds that can arise in `get_ai_response`. -/
inductive PyErr where
  | requestException   -- raised by `requests.post` (timeout, connection error)
  | jsonDecodeError    -- raised by `response.json()` on a malformed body
  | keyError           -- raised by `d[k]` when the key is missing
  | indexError         -- raised by `l[i]` when the index is out of range
  | typeError          -- raised by subscripting a value of the wrong type
  | attributeError     -- raised by `.strip()` on a non-string value
  deriving DecidableEq, Repr

/-- JSON values, the possible results of `response.json()`. -/
inductive Json where
  | null
  | bool (b : Bool)
  | num (n : Int)
  | str (s : String)
  | arr (items : List Json)
  | obj (fields : List (String × Json))

/-- Python `d[k]` on a JSON value: succeeds only on an object holding the key. -/
def Json.getKey : Json → String → Except PyErr Json
  | .obj fields, k =>
    match fields.lookup k with
    | some v => .ok v
    | none => .error .keyError
  | _, _ => .error .typeError

/-- Python `l[i]` on a JSON value: succeeds only on an array long enough. -/
def Json.getIdx : Json → Nat → Except PyErr Json
  | .arr items, i =>
    match items.get? i with
    | some v => .ok v
    | none => .error .indexError
  | _, _ => .error .typeError

/-- Python `.strip()` is only available on strings; anything else raises. -/
def Json.asStr : Json → Except PyErr String
  | .str s => .ok s
  | _ => .error .attributeError

/-- The whitespace characters removed by Python `str.strip()` (ASCII range). -/
def pyIsSpace (c : Char) : Bool :=
  c = ' ' || c = '\t' || c = '\n' || c = '\r' || c = '\x0b' || c = '\x0c'

/-- Python `str.strip()`: remove leading and trailing whitespace. -/
def pyStrip (s : String) : String :=
  String.mk (((s.toList.dropWhile pyIsSpace).reverse.dropWhile pyIsSpace).reverse)

/-- `data["choices"][0]["message"]["content"]` followed by the `.strip()`
type check, as in line 96 of `main.py`; returns the raw (unstripped) string. -/
def contentOf (data : Json) : Except PyErr String := do
  let choices ← data.getKey "choices"
  let first ← choices.getIdx 0
  let msg ← first.getKey "message"
  let content ← msg.getKey "content"
  content.asStr

/-- What the call to `requests.post` does, decided by the outside world:
either it raises, or it completes with an HTTP status code and a body
(`none` when `response.json()` would fail to parse it). -/
inductive RemoteOutcome where
  | raised
  | completed (statusCode : Nat) (jsonBody : Option Json)

/-- The data carried by the single `requests.post` invocation
(lines 69-86 of `main.py`). -/
structure OutboundCall where
  url : String
  authorization : String
  model : String
  systemContent : String
  userContent : String
  maxTokens : Nat
  timeoutSeconds : Nat
  deriving DecidableEq, Repr

/-- The concrete `requests.post` arguments.  Note the `f"Bearer {api_key}"`
f-string: when the key is absent, Python formats `None` as the text `None`,
so the header is the literal string `Bearer None`. -/
def mkRequestsPostCall (message : String) (apiKey : Option String) : OutboundCall :=
  { url := "https://api.groq.com/openai/v1/chat/completions"
    authorization := "Bearer " ++ (match apiKey with | some k => k | none => "None")
    model := "llama3-8b-8192"
    systemContent := "You are a financial advisor. Give brief, practical advice."
    userContent := message
    maxTokens := 300
    timeoutSeconds := 10 }

/-- The body of the `try` block (lines 67-99 of `main.py`), given the
remote outcome.  `some s` means line 96 returned `s` from inside the
`try`; `none` means the `else` branch printed the error and control fell
past the `try`; `.error` is an exception escaping the `try` block. -/
def tryBlockResult (outcome : RemoteOutcome) : Except PyErr (Option String) :=
  match outcome with
  | .raised => .error .requestException
  | .completed statusCode jsonBody =>
    if statusCode = 200 then
      match jsonBody with
      | none => .error .jsonDecodeError
      | some data => do
        let raw ← contentOf data
        return some (pyStrip raw)
    else
      .ok none

/-- Python substring containment `needle in hay`: `needle` occurs as a
contiguous run of `hay` (the empty needle is contained in everything). -/
def strIn (needle : List Char) : List Char → Bool
  | [] => needle.isEmpty
  | c :: rest => needle.isPrefixOf (c :: rest) || strIn needle rest

/-- Python `str.lower()` on one character (ASCII range: `A`-`Z` map to
`a`-`z`, everything else is unchanged). -/
def pyLowerChar (c : Char) : Char :=
  if 65 ≤ c.toNat ∧ c.toNat ≤ 90 then Char.ofNat (c.toNat + 32) else c

/-- Python `message.lower()`. -/
def pyLower (s : String) : List Char := s.toList.map pyLowerChar

/-- The fallback keyword selection, lines 107-114 of `main.py`.
Python `'kw' in message.lower()` is substring containment on the
lowercased message. -/
def fallbackResponse (message : String) : String :=
  if (strIn "budget".toList (pyLower message)) then
    "Track your income and expenses. Use the 50/30/20 rule: 50% needs, 30% wants, 20% savings."
  else if (strIn "invest".toList (pyLower message)) then
    "Start with low-cost index funds. Invest regularly and don't try to time the market."
  else if (strIn "debt".toList (pyLower message)) then
    "Pay minimum on all debts, then focus extra payments on the highest interest rate debt first."
  else
    "I can help with budgeting, investing, and debt management. What specific area interests you?"

/-- `get_ai_response` (lines 59-114 of `main.py`).  The first component is
the function's result (`Except` because a Python function may raise; the
`except Exception` clause is the `.error` arm of the match).  The second
component records the outbound calls issued: `requests.post` is invoked
exactly once, unconditionally, before the outcome is known. -/
def get_ai_response (message : String) (apiKey : Option String)
    (outcome : RemoteOutcome) : Except PyErr String × List OutboundCall :=
  let issued := [mkRequestsPostCall message apiKey]
  match tryBlockResult outcome with
  | .ok (some s) => (.ok s, issued)                          -- returned at line 96
  | .ok none => (.ok (fallbackResponse message), issued)      -- non-200, fell through
  | .error _ => (.ok (fallbackResponse message), issued)      -- `except Exception` at line 101

/-- `True` when the transport-level call produced a usable completion, i.e.
the `try` block returned a string at line 96. -/
def remoteSucceeded (outcome : RemoteOutcome) : Bool :=
  match tryBlockResult outcome with
  | .ok (some _) => true
  | _ => false

/-- Requests the application can receive on its HTTP surface. -/
inductive ApiRequest where
  | healthGet
  | chatPost (message : String)
  deriving DecidableEq, Repr

/-- Response bodies produced by the two handlers. -/
inductive ResponseBody where
  | health (status : String)     -- the dict returned by `health_check`
  | chat (response : String)     -- the `ChatResponse` model
  deriving DecidableEq, Repr

/-- `health_check` (lines 54-57): returns the status field of the dict. -/
def health_check : String := "healthy"

/-- `chat_endpoint` (lines 117-123): calls `get_ai_response` and wraps the
result in a `ChatResponse`.  FastAPI turns a normal return into HTTP 200
and an uncaught exception into an error status. -/
def chat_endpoint (message : String) (apiKey : Option String)
    (outcome : RemoteOutcome) : Nat × Option ResponseBody :=
  match (get_ai_response message apiKey outcome).1 with
  | .ok s => (200, some (.chat s))
  | .error _ => (500, none)

/-- The application's request dispatch: routes a request to its handler.
The environment (`apiKey`) and the remote service (`outcome`) are passed
to every handler; `health_check` reads neither. -/
def handleRequest (apiKey : Option String) (outcome : RemoteOutcome) :
    ApiRequest → Nat × Option ResponseBody
  | .healthGet => (200, some (.health health_check))
  | .chatPost message => chat_endpoint message apiKey outcome

/-- A well-formed completion payload whose first choice carries `c`. -/
def samplePayload (c : String) : Json :=
  .obj [("choices", .arr [.obj [("message", .obj [("content", .str c)])]])]

/-- Whenever the `try` block does not return a string, `get_ai_response`
answers with the keyword fallback. -/
theorem get_ai_response_of_failure (message : String) (apiKey : Option String)
    (outcome : RemoteOutcome) (h : remoteSucceeded outcome = false) :
    (get_ai_response message apiKey outcome).1 = .ok (fallbackResponse message) := by
  unfold get_ai_response
  cases hr : tryBlockResult outcome with
  | ok r =>
    cases r with
    | none => simp [hr]
    | some s => simp [remoteSucceeded, hr] at h
  | error e => simp [hr]

/-- On status 200 with a body whose content extraction yields `raw`,
`get_ai_response` answers with the stripped content. -/
theorem get_ai_response_of_success (message : String) (apiKey : Option String)
    (data : Json) (raw : String) (h : contentOf data = .ok raw) :
    (get_ai_response message apiKey (.completed 200 (some data))).1 =
      .ok (pyStrip raw) := by
  unfold get_ai_response tryBlockResult
  simp [h, Except.bind]

/-- Stripping a string made only of whitespace gives the empty string. -/
theorem pyStrip_of_all_space (s : String) (h : s.toList.all pyIsSpace = true) :
    pyStrip s = "" := by
  unfold pyStrip
  have hd : List.dropWhile pyIsSpace s.data = [] := by
    rw [List.dropWhile_eq_nil_iff]
    intro x hx
    exact List.all_eq_true.mp h x hx
  rw [show s.toList = s.data from rfl, hd]
  rfl

/-- C1: every syntactically valid POST /api/chat request receives HTTP 200
with a string response body, under every remote outcome (missing credential,
network error, non-success status, malformed payload, timeout); no failure
mode surfaces to the caller as an error status. -/
theorem chat_endpoint_always_200 (message : String) (apiKey : Option String)
    (outcome : RemoteOutcome) :
    ∃ s : String, chat_endpoint message apiKey outcome = (200, some (.chat s)) := by
  unfold chat_endpoint get_ai_response
  cases tryBlockResult outcome with
  | ok r => cases r <;> exact ⟨_, rfl⟩
  | error e => exact ⟨_, rfl⟩

/-- C2: fallback selection tests the lowercased message for "budget", then
"invest", then "debt", in that fixed order with first match winning, so the
precedence when several keywords occur is budget > invest > debt > generic. -/
theorem fallback_keyword_precedence (m : String) :
    (strIn "budget".toList (pyLower m) = true →
      fallbackResponse m =
        "Track your income and expenses. Use the 50/30/20 rule: 50% needs, 30% wants, 20% savings.") ∧
    (strIn "budget".toList (pyLower m) = false →
      strIn "invest".toList (pyLower m) = true →
      fallbackResponse m =
        "Start with low-cost index funds. Invest regularly and don't try to time the market.") ∧
    (strIn "budget".toList (pyLower m) = false →
      strIn "invest".toList (pyLower m) = false →
      strIn "debt".toList (pyLower m) = true →
      fallbackResponse m =
        "Pay minimum on all debts, then focus extra payments on the highest interest rate debt first.") ∧
    (strIn "budget".toList (pyLower m) = false →
      strIn "invest".toList (pyLower m) = false →
      strIn "debt".toList (pyLower m) = false →
      fallbackResponse m =
        "I can help with budgeting, investing, and debt management. What specific area interests you?") := by
  unfold fallbackResponse
  refine ⟨?_, ?_, ?_, ?_⟩ <;> intros <;> simp_all

/-- Witness for C2 at concrete messages: all three keywords give the budget
tip; invest and debt without budget give the invest tip; debt alone gives the
debt tip; no keyword gives the generic prompt. -/
theorem fallback_keyword_precedence_witness :
    fallbackResponse "budget invest debt" =
      "Track your income and expenses. Use the 50/30/20 rule: 50% needs, 30% wants, 20% savings." ∧
    fallbackResponse "invest and debt" =
      "Start with low-cost index funds. Invest regularly and don't try to time the market." ∧
    fallbackResponse "my DEBT" =
      "Pay minimum on all debts, then focus extra payments on the highest interest rate debt first." ∧
    fallbackResponse "pizza" =
      "I can help with budgeting, investing, and debt management. What specific area interests you?" :=
  ⟨(fallback_keyword_precedence "budget invest debt").1 (by decide),
   (fallback_keyword_precedence "invest and debt").2.1 (by decide) (by decide),
   (fallback_keyword_precedence "my DEBT").2.2.1 (by decide) (by decide) (by decide),
   (fallback_keyword_precedence "pizza").2.2.2 (by decide) (by decide) (by decide)⟩

/-- C3: whenever the remote call completes with status 200 and a well-formed
payload, `get_ai_response` returns exactly the whitespace-stripped content of
the first completion choice, regardless of keywords in the message. -/
theorem remote_success_returns_trimmed_content (message : String)
    (apiKey : Option String) (data : Json) (raw : String)
    (h : contentOf data = .ok raw) :
    (get_ai_response message apiKey (.completed 200 (some data))).1 =
      .ok (pyStrip raw) := by
  unfold get_ai_response tryBlockResult
  simp [h, Except.bind]

/-- Witness for C3: a message full of keywords still gets the remote content,
stripped. -/
theorem remote_success_returns_trimmed_content_witness :
    contentOf (samplePayload "  Diversify.  ") = .ok "  Diversify.  " ∧
    (get_ai_response "budget invest debt" (some "key")
        (.completed 200 (some (samplePayload "  Diversify.  ")))).1 =
      .ok "Diversify." :=
  ⟨rfl, remote_success_returns_trimmed_content "budget invest debt" (some "key")
    (samplePayload "  Diversify.  ") "  Diversify.  " rfl⟩

/-- C4 counterexample: with the credential absent, the code still issues the
outbound `requests.post` call — the issued-call list is not empty, so the
claim that no outbound call is issued is false. -/
theorem missing_credential_counterexample :
    ¬ ((get_ai_response "hello" none .raised).2 = []) := by
  simp [get_ai_response, tryBlockResult]

/-- C4 amended: with the credential absent, the outbound call is still
issued, exactly once, with the literal authorization header "Bearer None";
when that call then fails, the function falls through to fallback selection,
identically to any other remote failure. -/
theorem missing_credential_still_calls_then_fallback (message : String)
    (outcome : RemoteOutcome) (h : remoteSucceeded outcome = false) :
    (get_ai_response message none outcome).2 = [mkRequestsPostCall message none] ∧
    (mkRequestsPostCall message none).authorization = "Bearer None" ∧
    (get_ai_response message none outcome).1 = .ok (fallbackResponse message) := by
  refine ⟨?_, rfl, get_ai_response_of_failure message none outcome h⟩
  unfold get_ai_response
  cases tryBlockResult outcome with
  | ok r => cases r <;> rfl
  | error e => rfl

/-- Witness for C4's amended statement at a concrete message and a raised
request exception. -/
theorem missing_credential_still_calls_then_fallback_witness :
    (get_ai_response "hello" none .raised).2 = [mkRequestsPostCall "hello" none] ∧
    (mkRequestsPostCall "hello" none).authorization = "Bearer None" ∧
    (get_ai_response "hello" none .raised).1 = .ok (fallbackResponse "hello") :=
  missing_credential_still_calls_then_fallback "hello" .raised (by decide)

/-- C5: a message containing "budget" (case-insensitive) gets the fixed
budgeting tip whenever the remote call does not succeed. -/
theorem budget_keyword_fallback_tip (message : String) (apiKey : Option String)
    (outcome : RemoteOutcome)
    (hk : strIn "budget".toList (pyLower message) = true)
    (hf : remoteSucceeded outcome = false) :
    (get_ai_response message apiKey outcome).1 =
      .ok "Track your income and expenses. Use the 50/30/20 rule: 50% needs, 30% wants, 20% savings." := by
  rw [get_ai_response_of_failure message apiKey outcome hf]
  unfold fallbackResponse
  rw [if_pos hk]

/-- Witness for C5: the spec's own example message with a failing remote
call. -/
theorem budget_keyword_fallback_tip_witness :
    (get_ai_response "How should I budget my income?" none .raised).1 =
      .ok "Track your income and expenses. Use the 50/30/20 rule: 50% needs, 30% wants, 20% savings." :=
  budget_keyword_fallback_tip "How should I budget my income?" none .raised
    (by decide) (by decide)

/-- C6: a message containing none of the keywords (the empty string
included) gets the generic prompt whenever the remote call does not
succeed. -/
theorem no_keyword_generic_prompt (message : String) (apiKey : Option String)
    (outcome : RemoteOutcome)
    (hb : strIn "budget".toList (pyLower message) = false)
    (hi : strIn "invest".toList (pyLower message) = false)
    (hd : strIn "debt".toList (pyLower message) = false)
    (hf : remoteSucceeded outcome = false) :
    (get_ai_response message apiKey outcome).1 =
      .ok "I can help with budgeting, investing, and debt management. What specific area interests you?" := by
  rw [get_ai_response_of_failure message apiKey outcome hf]
  unfold fallbackResponse
  rw [if_neg (by simpa using hb), if_neg (by simpa using hi),
    if_neg (by simpa using hd)]

/-- Witness for C6: the spec's example message and the empty string, both
with a failing remote call. -/
theorem no_keyword_generic_prompt_witness :
    (get_ai_response "Tell me about pizza" none .raised).1 =
      .ok "I can help with budgeting, investing, and debt management. What specific area interests you?" ∧
    (get_ai_response "" none (.completed 500 none)).1 =
      .ok "I can help with budgeting, investing, and debt management. What specific area interests you?" :=
  ⟨no_keyword_generic_prompt "Tell me about pizza" none .raised
      (by decide) (by decide) (by decide) (by decide),
   no_keyword_generic_prompt "" none (.completed 500 none)
      (by decide) (by decide) (by decide) (by decide)⟩

/-- C7: each invocation issues at most one outbound call — never a retry —
and that call carries the fixed system instruction, max_tokens 300, and a
10-second timeout. -/
theorem single_outbound_call_fixed_parameters (message : String)
    (apiKey : Option String) (outcome : RemoteOutcome) :
    (get_ai_response message apiKey outcome).2.length ≤ 1 ∧
    ∀ c ∈ (get_ai_response message apiKey outcome).2,
      c.url = "https://api.groq.com/openai/v1/chat/completions" ∧
      c.systemContent = "You are a financial advisor. Give brief, practical advice." ∧
      c.userContent = message ∧
      c.maxTokens = 300 ∧
      c.timeoutSeconds = 10 := by
  have hcalls : (get_ai_response message apiKey outcome).2 =
      [mkRequestsPostCall message apiKey] := by
    unfold get_ai_response
    cases tryBlockResult outcome with
    | ok r => cases r <;> rfl
    | error e => rfl
  rw [hcalls]
  refine ⟨by simp, ?_⟩
  intro c hc
  rw [List.mem_singleton.mp hc]
  exact ⟨rfl, rfl, rfl, rfl, rfl⟩

/-- Witness for C7 at a concrete invocation: the one issued call carries the
fixed parameters. -/
theorem single_outbound_call_fixed_parameters_witness :
    (get_ai_response "hi" (some "key") .raised).2.length ≤ 1 ∧
    (mkRequestsPostCall "hi" (some "key")).maxTokens = 300 ∧
    (mkRequestsPostCall "hi" (some "key")).timeoutSeconds = 10 :=
  ⟨(single_outbound_call_fixed_parameters "hi" (some "key") .raised).1,
   ((single_outbound_call_fixed_parameters "hi" (some "key") .raised).2
      (mkRequestsPostCall "hi" (some "key")) (by decide)).2.2.2.1,
   ((single_outbound_call_fixed_parameters "hi" (some "key") .raised).2
      (mkRequestsPostCall "hi" (some "key")) (by decide)).2.2.2.2⟩

/-- C8: every GET /api/health request returns the body status "healthy" with
HTTP 200, independent of the configured credential and the remote service's
state. -/
theorem health_endpoint_always_healthy (apiKey : Option String)
    (outcome : RemoteOutcome) :
    handleRequest apiKey outcome .healthGet = (200, some (.health "healthy")) :=
  rfl

/-- C9: on the success path the stripped remote content is returned as-is,
even when it strips to the empty string (whitespace-only content yields ""),
and the success-path result never depends on the message, so it never falls
through to keyword fallback. -/
theorem remote_success_even_empty (data : Json) (raw : String)
    (h : contentOf data = .ok raw) :
    (∀ message apiKey, raw.toList.all pyIsSpace = true →
      (get_ai_response message apiKey (.completed 200 (some data))).1 = .ok "") ∧
    (∀ m₁ m₂ apiKey,
      (get_ai_response m₁ apiKey (.completed 200 (some data))).1 =
        (get_ai_response m₂ apiKey (.completed 200 (some data))).1) := by
  constructor
  · intro message apiKey hsp
    rw [get_ai_response_of_success message apiKey data raw h,
      pyStrip_of_all_space raw hsp]
  · intro m₁ m₂ apiKey
    rw [get_ai_response_of_success m₁ apiKey data raw h,
      get_ai_response_of_success m₂ apiKey data raw h]

/-- Witness for C9: whitespace-only remote content makes a keyword-laden
message receive the empty string, never its keyword fallback. -/
theorem remote_success_even_empty_witness :
    (get_ai_response "budget please" none
        (.completed 200 (some (samplePayload "   ")))).1 = .ok "" :=
  (remote_success_even_empty (samplePayload "   ") "   " rfl).1
    "budget please" none (by decide)

/-- C10: the fallback is a function of the message alone — any two failure
modes, under any credential states, produce the identical fallback string,
namely the keyword selection on the message. -/
theorem fallback_function_of_message_alone (m : String) (k₁ k₂ : Option String)
    (o₁ o₂ : RemoteOutcome)
    (h₁ : remoteSucceeded o₁ = false) (h₂ : remoteSucceeded o₂ = false) :
    (get_ai_response m k₁ o₁).1 = (get_ai_response m k₂ o₂).1 ∧
    (get_ai_response m k₁ o₁).1 = .ok (fallbackResponse m) := by
  rw [get_ai_response_of_failure m k₁ o₁ h₁, get_ai_response_of_failure m k₂ o₂ h₂]
  exact ⟨rfl, rfl⟩

/-- Witness for C10: a raised exception without credential and a 500 status
with malformed body under a configured credential coincide on the same
message. -/
theorem fallback_function_of_message_alone_witness :
    (get_ai_response "what about debt" none .raised).1 =
      (get_ai_response "what about debt" (some "key") (.completed 500 none)).1 ∧
    (get_ai_response "what about debt" none .raised).1 =
      .ok (fallbackResponse "what about debt") :=
  fallback_function_of_message_alone "what about debt" none (some "key")
    .raised (.completed 500 none) (by decide) (by decide)

end AIChatbot
